import Mathlib

/-!
Verification of the credential-lifecycle orchestrator of `expo-cli`
(`packages/expo-cli/src/commands/build/ios/IOSBuilder.ts`) and of the Podfile
template renderer (`renderPodfileAsync` and `_validatePodfileSubstitutions`).

The orchestrator's effectful methods are embedded shallowly: the local
credential store is an explicit record of four optional artifact slots, the
external collaborators (the per-type credential resolver views, the remote
authority client and the prompt provider) are abstract behaviours supplied in a
`ResolverEnv`, and each orchestrator method returns the list of observable
collaborator calls (`Event`s) it made together with the final store and an
optional raised error code.  A JavaScript `try/catch/finally` is embedded by
explicit control flow: the `finally` block's effects are appended on every path
that leaves the `try` body, including the path on which the `catch` block
rethrows.
-/

namespace ExpoCli

/-- Error codes carried by `CommandError`/`XDLError` in the source
(`ErrorCodes.NON_INTERACTIVE`, `'INSUFFICIENT_CREDENTIALS'`,
`'INVALID_OPTIONS'`), plus codes for failures raised by external collaborators
(remote authority failures and a catch-all). -/
inductive ErrorCode
  | NON_INTERACTIVE
  | INSUFFICIENT_CREDENTIALS
  | INVALID_OPTIONS
  | REMOTE_AUTHORITY
  | OTHER
deriving DecidableEq, Repr

/-- The local credential store restricted to one
`(experienceName, bundleIdentifier)` key: at most one artifact of each of the
four types (artifacts are abstracted to numeric identifiers).  Matches the
reads `ctx.ios.getDistCert / getPushKey / getPushCert / getProvisioningProfile`
in the source. -/
structure IosCredStore where
  distCert : Option Nat
  pushKey : Option Nat
  pushCert : Option Nat
  provisioningProfile : Option Nat
deriving DecidableEq, Repr

/-- Observable collaborator calls made by the orchestrator. -/
inductive Event
  /-- Call to `apple.ensureAppExists` with its push-notification capability flag. -/
  | ensureAppExists (enablePushNotifications : Bool)
  /-- The DistributionCertificate step of `produceCredentials`
  (`_setupDistCert`: params adoption or the `SetupIosDist` view). -/
  | setupDistCert
  /-- The PushKey step (`_setupPushCert`: params adoption or `SetupIosPush`). -/
  | setupPushKey
  /-- The ProvisioningProfile step (`_setupProvisioningProfile`), recording the
  distribution certificate passed to it. -/
  | setupProvisioningProfile (distCert : Nat)
  /-- Call to `displayProjectCredentials(experienceName, bundleIdentifier, creds)`,
  recording the store contents it is shown. -/
  | displayProjectCredentials (store : IosCredStore)
  /-- Call to `prompt` asking whether the operator has Apple-account access. -/
  | promptAppleAccount
  /-- Call to `ctx.ensureAppleCtx(options)` (authentication against the authority). -/
  | ensureAppleCtx
  | removeDistCertLocal
  | revokeDistCertRemote
  | removePushKeyLocal
  | revokePushKeyRemote
  | removeProfileLocal
  | revokeProfileRemote
  /-- Call to `ctx.ios.deletePushCert` (legacy type, local deletion only). -/
  | deletePushCert
deriving DecidableEq, Repr

/-- Result of one effectful orchestrator step: the collaborator calls made, the
store afterwards, and the error raised (if any).  Store updates made before a
raise persist, as they do in the source. -/
structure StepOut where
  trace : List Event
  store : IosCredStore
  err : Option ErrorCode
deriving DecidableEq, Repr

/-- The CLI options consumed by the credential phase (`this.options`, with
`nonInteractive` standing for `this.options.parent &&
this.options.parent.nonInteractive`). -/
structure Options where
  skipCredentialsCheck : Bool := false
  clearCredentials : Bool := false
  clearDistCert : Bool := false
  clearPushKey : Bool := false
  clearPushCert : Bool := false
  clearProvisioningProfile : Bool := false
  revokeCredentials : Bool := false
  nonInteractive : Bool := false
  appleId : Option String := none
deriving DecidableEq, Repr

/-- Behaviour of the external collaborators invoked by the orchestrator: the
`getXFromParams`/`useXFromParams` helpers, the `SetupIos*` resolver views run
through `runCredentialsManager`, `apple.ensureAppExists`, `ctx.ensureAppleCtx`
and the confirm prompt.  Each resolver may update the store and may raise; the
orchestrator treats them as opaque. -/
structure ResolverEnv where
  distCertFromParams : Option Nat
  pushKeyFromParams : Option Nat
  provisioningProfileFromParams : Option Nat
  useDistCertFromParams : Nat → IosCredStore → IosCredStore × Option ErrorCode
  setupIosDist : Bool → IosCredStore → IosCredStore × Option ErrorCode
  usePushKeyFromParams : Nat → IosCredStore → IosCredStore × Option ErrorCode
  setupIosPush : Bool → IosCredStore → IosCredStore × Option ErrorCode
  useProvisioningProfileFromParams :
    Nat → Nat → IosCredStore → IosCredStore × Option ErrorCode
  setupIosProvisioningProfile :
    Bool → Nat → IosCredStore → IosCredStore × Option ErrorCode
  ensureAppExistsErr : Option ErrorCode
  ensureAppleCtxErr : Option ErrorCode
  promptConfirm : Bool

/-- The compacted clear request (`Record<string, boolean>` after `pickBy`):
each key is either absent (`none`) or present with its boolean value. -/
structure CredsToClear where
  distributionCert : Option Bool
  pushKey : Option Bool
  pushCert : Option Bool
  provisioningProfile : Option Bool
deriving DecidableEq, Repr

/-- Behaviour of `pickBy` on a single boolean entry: a truthy value is kept, a falsy value
leaves no entry. -/
def pickBool (b : Bool) : Option Bool :=
  if b then some true else none

/-- Embedding of `IOSBuilder.determineCredentialsToClear` (IOSBuilder.ts:365-381):
builds the full boolean record (a `clearCredentials` flag implies every entry)
and compacts it with `pickBy`. -/
def determineCredentialsToClear (opts : Options) : CredsToClear where
  distributionCert := pickBool (opts.clearCredentials || opts.clearDistCert)
  pushKey := pickBool (opts.clearCredentials || opts.clearPushKey)
  pushCert := pickBool (opts.clearCredentials || opts.clearPushCert)
  provisioningProfile := pickBool (opts.clearCredentials || opts.clearProvisioningProfile)

/-- Modelled from the spec: `RemoveIosDist(...).removeSpecific` (in
`credentials/views/IosDistCert`, not under `src/`): removes the distribution
certificate locally; when revocation was requested, also revokes the remote
record (§4.3 of the spec). -/
def removeIosDist (shouldRevoke : Bool) (store : IosCredStore) :
    List Event × IosCredStore :=
  (Event.removeDistCertLocal ::
      (if shouldRevoke then [Event.revokeDistCertRemote] else []),
   { store with distCert := none })

/-- Modelled from the spec: `RemoveIosPush(...).removeSpecific` (in
`credentials/views/IosPushCredentials`, not under `src/`): removes the push key
locally; revokes remotely when requested (§4.3 of the spec). -/
def removeIosPush (shouldRevoke : Bool) (store : IosCredStore) :
    List Event × IosCredStore :=
  (Event.removePushKeyLocal ::
      (if shouldRevoke then [Event.revokePushKeyRemote] else []),
   { store with pushKey := none })

/-- Modelled from the spec: `RemoveProvisioningProfile(...).removeSpecific` (in
`credentials/views/IosProvisioningProfile`, not under `src/`): removes the
provisioning profile locally (never its certificate, §8 Clear independence);
revokes remotely when requested. -/
def removeProvisioningProfile (shouldRevoke : Bool) (store : IosCredStore) :
    List Event × IosCredStore :=
  (Event.removeProfileLocal ::
      (if shouldRevoke then [Event.revokeProfileRemote] else []),
   { store with provisioningProfile := none })

/-- The distribution-certificate block of `IOSBuilder.clearCredentials`
(IOSBuilder.ts:334-340): read the artifact, act only when requested and
present. -/
def clearDistStep (opts : Options) (c : CredsToClear) (store : IosCredStore) :
    List Event × IosCredStore :=
  if c.distributionCert.getD false && store.distCert.isSome then
    removeIosDist opts.revokeCredentials store
  else ([], store)

/-- The push-key block of `IOSBuilder.clearCredentials`
(IOSBuilder.ts:342-345). -/
def clearPushKeyStep (opts : Options) (c : CredsToClear) (store : IosCredStore) :
    List Event × IosCredStore :=
  if c.pushKey.getD false && store.pushKey.isSome then
    removeIosPush opts.revokeCredentials store
  else ([], store)

/-- The provisioning-profile block of `IOSBuilder.clearCredentials`
(IOSBuilder.ts:347-357). -/
def clearProfileStep (opts : Options) (c : CredsToClear) (store : IosCredStore) :
    List Event × IosCredStore :=
  if c.provisioningProfile.getD false && store.provisioningProfile.isSome then
    removeProvisioningProfile opts.revokeCredentials store
  else ([], store)

/-- The legacy push-certificate block of `IOSBuilder.clearCredentials`
(IOSBuilder.ts:359-362): local deletion only, no remote revocation path. -/
def clearPushCertStep (c : CredsToClear) (store : IosCredStore) :
    List Event × IosCredStore :=
  if c.pushCert.getD false && store.pushCert.isSome then
    ([Event.deletePushCert], { store with pushCert := none })
  else ([], store)

/-- Embedding of `IOSBuilder.clearCredentials` (IOSBuilder.ts:326-363): the four guarded
removal blocks in source order (distribution certificate, push key,
provisioning profile, legacy push certificate), each reading the current store
before conditionally acting. -/
def clearCredentials (opts : Options) (store : IosCredStore)
    (credsToClear : CredsToClear) : List Event × IosCredStore :=
  let r1 := clearDistStep opts credsToClear store
  let r2 := clearPushKeyStep opts credsToClear r1.2
  let r3 := clearProfileStep opts credsToClear r2.2
  let r4 := clearPushCertStep credsToClear r3.2
  (r1.1 ++ r2.1 ++ r3.1 ++ r4.1, r4.2)

/-- Embedding of `IOSBuilder.clearAndRevokeCredentialsIfRequested` (IOSBuilder.ts:305-324):
runs the clear phase only when some clear flag is set. -/
def clearAndRevokeCredentialsIfRequested (opts : Options) (store : IosCredStore) :
    List Event × IosCredStore :=
  let shouldClearAnything :=
    opts.clearCredentials || opts.clearDistCert || opts.clearPushKey ||
      opts.clearPushCert || opts.clearProvisioningProfile
  if shouldClearAnything then
    clearCredentials opts store (determineCredentialsToClear opts)
  else ([], store)

/-- Embedding of `IOSBuilder.bestEffortAppleCtx` (IOSBuilder.ts:80-111).  Returns the calls
made, whether an authenticated Apple context exists afterwards, and the raised
error (if authentication itself failed). -/
def bestEffortAppleCtx (env : ResolverEnv) (opts : Options) (hasAppleCtx : Bool) :
    List Event × Bool × Option ErrorCode :=
  if hasAppleCtx then ([], true, none)
  else if opts.appleId.isSome then
    match env.ensureAppleCtxErr with
    | some e => ([Event.ensureAppleCtx], false, some e)
    | none => ([Event.ensureAppleCtx], true, none)
  else if opts.nonInteractive then ([], false, none)
  else if env.promptConfirm then
    match env.ensureAppleCtxErr with
    | some e => ([Event.promptAppleAccount, Event.ensureAppleCtx], false, some e)
    | none => ([Event.promptAppleAccount, Event.ensureAppleCtx], true, none)
  else ([Event.promptAppleAccount], false, none)

/-- Embedding of `IOSBuilder._setupDistCert` (IOSBuilder.ts:193-214): adopt a certificate
fully specified by CLI params, else run the `SetupIosDist` resolver view; a
failure is logged and re-raised. -/
def setupDistCertStep (env : ResolverEnv) (opts : Options) (store : IosCredStore) :
    StepOut :=
  match env.distCertFromParams with
  | some p =>
    let r := env.useDistCertFromParams p store
    ⟨[Event.setupDistCert], r.1, r.2⟩
  | none =>
    let r := env.setupIosDist opts.nonInteractive store
    ⟨[Event.setupDistCert], r.1, r.2⟩

/-- Embedding of `IOSBuilder._setupPushCert` (IOSBuilder.ts:216-237): adopt a push key from
CLI params, else run the `SetupIosPush` resolver view; a failure is logged and
re-raised. -/
def setupPushCertStep (env : ResolverEnv) (opts : Options) (store : IosCredStore) :
    StepOut :=
  match env.pushKeyFromParams with
  | some p =>
    let r := env.usePushKeyFromParams p store
    ⟨[Event.setupPushKey], r.1, r.2⟩
  | none =>
    let r := env.setupIosPush opts.nonInteractive store
    ⟨[Event.setupPushKey], r.1, r.2⟩

/-- Embedding of `IOSBuilder._setupProvisioningProfile` (IOSBuilder.ts:239-272): adopt a
profile from CLI params, else run the `SetupIosProvisioningProfile` resolver
view; both branches receive the already-resolved distribution certificate. -/
def setupProvisioningProfileStep (env : ResolverEnv) (opts : Options)
    (distCert : Nat) (store : IosCredStore) : StepOut :=
  match env.provisioningProfileFromParams with
  | some p =>
    let r := env.useProvisioningProfileFromParams p distCert store
    ⟨[Event.setupProvisioningProfile distCert], r.1, r.2⟩
  | none =>
    let r := env.setupIosProvisioningProfile opts.nonInteractive distCert store
    ⟨[Event.setupProvisioningProfile distCert], r.1, r.2⟩

/-- Embedding of `IOSBuilder.produceCredentials` after the optional registration step
(IOSBuilder.ts:284-302): distribution-certificate step, re-read of the
certificate from the store with the `INSUFFICIENT_CREDENTIALS` gate, push-key
step, then the provisioning-profile step receiving the re-read certificate. -/
def produceRest (env : ResolverEnv) (opts : Options) (store : IosCredStore) :
    StepOut :=
  let d := setupDistCertStep env opts store
  match d.err with
  | some e => ⟨d.trace, d.store, some e⟩
  | none =>
    match d.store.distCert with
    | none => ⟨d.trace, d.store, some ErrorCode.INSUFFICIENT_CREDENTIALS⟩
    | some cert =>
      let p := setupPushCertStep env opts d.store
      match p.err with
      | some e => ⟨d.trace ++ p.trace, p.store, some e⟩
      | none =>
        let pr := setupProvisioningProfileStep env opts cert p.store
        ⟨d.trace ++ p.trace ++ pr.trace, pr.store, pr.err⟩

/-- Embedding of `IOSBuilder.produceCredentials` (IOSBuilder.ts:274-303): when an
authenticated Apple context exists, first ensure the app is registered with
push notifications enabled; then run the credential steps in order. -/
def produceCredentials (env : ResolverEnv) (opts : Options) (hasAppleCtx : Bool)
    (store : IosCredStore) : StepOut :=
  if hasAppleCtx then
    match env.ensureAppExistsErr with
    | some e => ⟨[Event.ensureAppExists true], store, some e⟩
    | none =>
      let r := produceRest env opts store
      ⟨Event.ensureAppExists true :: r.trace, r.store, r.err⟩
  else produceRest env opts store

/-- Embedding of `IOSBuilder.prepareCredentials` (IOSBuilder.ts:139-191): missing
`ios.bundleIdentifier` raises `INVALID_OPTIONS` before anything else; then the
clear/revoke phase; then the `skipCredentialsCheck` early return; then the
best-effort authentication gate; then `produceCredentials` inside a
`try/catch/finally` whose `catch` rewraps a `NON_INTERACTIVE` failure (keeping
the code) or re-raises, and whose `finally` fetches the current credentials and
calls `displayProjectCredentials` on every path leaving the `try` body. -/
def prepareCredentials (env : ResolverEnv) (opts : Options)
    (bundleIdentifier : Option String) (hasAppleCtx : Bool)
    (store : IosCredStore) : StepOut :=
  match bundleIdentifier with
  | none => ⟨[], store, some ErrorCode.INVALID_OPTIONS⟩
  | some _ =>
    let c := clearAndRevokeCredentialsIfRequested opts store
    if opts.skipCredentialsCheck then ⟨c.1, c.2, none⟩
    else
      let b := bestEffortAppleCtx env opts hasAppleCtx
      match b.2.2 with
      | some e => ⟨c.1 ++ b.1, c.2, some e⟩
      | none =>
        let p := produceCredentials env opts b.2.1 c.2
        ⟨c.1 ++ b.1 ++ p.trace ++ [Event.displayProjectCredentials p.store],
         p.store, p.err⟩

/-! ### Event classifiers -/

/-- Recognizes a `displayProjectCredentials` (local report) event. -/
def isDisplayEvent : Event → Bool
  | .displayProjectCredentials _ => true
  | _ => false

/-- Recognizes an authentication-gate event (the account prompt or the
`ensureAppleCtx` call). -/
def isAuthEvent : Event → Bool
  | .promptAppleAccount => true
  | .ensureAppleCtx => true
  | _ => false

/-- Recognizes a credential-production event (remote app registration or one
of the three per-type resolver invocations). -/
def isSetupEvent : Event → Bool
  | .ensureAppExists _ => true
  | .setupDistCert => true
  | .setupPushKey => true
  | .setupProvisioningProfile _ => true
  | _ => false

/-- Recognizes a clear/revoke-phase event. -/
def isClearEvent : Event → Bool
  | .removeDistCertLocal => true
  | .revokeDistCertRemote => true
  | .removePushKeyLocal => true
  | .revokePushKeyRemote => true
  | .removeProfileLocal => true
  | .revokeProfileRemote => true
  | .deletePushCert => true
  | _ => false

/-! ### Podfile template rendering (`renderPodfileAsync`) -/

/-- The fixed list of recognized Podfile template keys
(`_validatePodfileSubstitutions`, source lines 11-50). -/
def validKeys : List String :=
  ["EXPOKIT_DEPENDENCY",
   "EXPOKIT_PATH",
   "EXPOKIT_TAG",
   "EXPONENT_CLIENT_DEPS",
   "PODFILE_DETACHED_POSTINSTALL",
   "PODFILE_DETACHED_SERVICE_POSTINSTALL",
   "PODFILE_TEST_TARGET",
   "PODFILE_UNVERSIONED_RN_DEPENDENCY",
   "PODFILE_UNVERSIONED_POSTINSTALL",
   "PODFILE_VERSIONED_RN_DEPENDENCIES",
   "PODFILE_VERSIONED_POSTINSTALLS",
   "REACT_NATIVE_EXPO_SUBSPECS",
   "REACT_NATIVE_PATH",
   "TARGET_NAME",
   "VERSIONED_REACT_NATIVE_PATH",
   "PODFILE_UNVERSIONED_EXPO_MODULES_DEPENDENCIES",
   "UNIVERSAL_MODULES",
   "UNIVERSAL_MODULES_PATH"]

/-- A JavaScript object as an association list in key-insertion order: setting
an existing key updates it in place, a new key is appended. -/
def objInsert (obj : List (String × String)) (k v : String) :
    List (String × String) :=
  if obj.any (fun p => p.1 = k) then
    obj.map (fun p => if p.1 = k then (k, v) else p)
  else obj ++ [(k, v)]

/-- The object-spread `{ ...base, ...more }` restricted to string values. -/
def objSpread (base more : List (String × String)) : List (String × String) :=
  more.foldl (fun acc kv => objInsert acc kv.1 kv.2) base

/-- Embedding of `_validatePodfileSubstitutions` (source lines 10-60): iterate the
substitution keys in insertion order and throw at the first key outside
`validKeys`, naming it. -/
def validatePodfileSubstitutions (substitutions : List (String × String)) :
    Except String Bool :=
  match substitutions.find? (fun kv => !(validKeys.contains kv.1)) with
  | some kv => Except.error ("Unrecognized Podfile template key: " ++ kv.1)
  | none => Except.ok true

/-- The file-system- and helper-derived inputs of `renderPodfileAsync`: the
template file's contents and the strings produced by the `_render*` helpers
(which read template directories and `dependencies.json` from disk). -/
structure PodfileEnv where
  templateString : String
  podDependencies : String
  expoKitDependency : String
  unversionedExpoModulesDependencies : String
  unversionedRnDependency : String
  unversionedPostinstall : String
  detachedPostinstall : String
  detachedServicePostinstall : String
  versionedDependencies : String
  versionedPostinstalls : String
  /-- Whether `shellAppSdkVersion` is truthy (selects `''` over the rendered
  test target for `PODFILE_TEST_TARGET`). -/
  shellAppSdkVersionTruthy : Bool
  testTarget : String

/-- The default `substitutions` object literal built inside
`renderPodfileAsync` (source lines 540-559), before `...moreSubstitutions` is
spread over it, in source key order. -/
def defaultSubstitutions (env : PodfileEnv) : List (String × String) :=
  [("EXPONENT_CLIENT_DEPS", env.podDependencies),
   ("EXPOKIT_DEPENDENCY", env.expoKitDependency),
   ("PODFILE_UNVERSIONED_EXPO_MODULES_DEPENDENCIES",
     env.unversionedExpoModulesDependencies),
   ("PODFILE_UNVERSIONED_RN_DEPENDENCY", env.unversionedRnDependency),
   ("PODFILE_UNVERSIONED_POSTINSTALL", env.unversionedPostinstall),
   ("PODFILE_DETACHED_POSTINSTALL", env.detachedPostinstall),
   ("PODFILE_DETACHED_SERVICE_POSTINSTALL", env.detachedServicePostinstall),
   ("PODFILE_VERSIONED_RN_DEPENDENCIES", env.versionedDependencies),
   ("PODFILE_VERSIONED_POSTINSTALLS", env.versionedPostinstalls),
   ("PODFILE_TEST_TARGET",
     if env.shellAppSdkVersionTruthy then "" else env.testTarget)]

/-- The replacement loop of `renderPodfileAsync` (source lines 562-568): for
each substitution key, replace every occurrence of `$\x7bKEY\x7d` in the
template. -/
def applySubstitutions (template : String) (subs : List (String × String)) :
    String :=
  subs.foldl (fun acc kv => acc.replace ("$\x7b" ++ kv.1 ++ "\x7d") kv.2) template

/-- Embedding of `renderPodfileAsync` (source lines 481-571), with the file reads and helper
renderers abstracted into `PodfileEnv`: build the substitutions object (the
defaults spread with `moreSubstitutions`), validate it, and only then apply the
replacements and produce the output text.  `Except.error` models the thrown
validation error, on which no output file is written. -/
def renderPodfileAsync (env : PodfileEnv)
    (moreSubstitutions : List (String × String)) : Except String String :=
  let substitutions := objSpread (defaultSubstitutions env) moreSubstitutions
  match validatePodfileSubstitutions substitutions with
  | Except.error msg => Except.error msg
  | Except.ok _ => Except.ok (applySubstitutions env.templateString substitutions)

/-! ### Concrete instances used by witnesses and counterexamples -/

/-- An empty local store. -/
def store0 : IosCredStore := ⟨none, none, none, none⟩

/-- A store holding all four artifacts. -/
def storeFull : IosCredStore := ⟨some 1, some 2, some 3, some 4⟩

/-- A well-behaved collaborator environment: no CLI params, every resolver
succeeds and writes its artifact, registration and authentication succeed, the
operator answers yes. -/
def envOk : ResolverEnv where
  distCertFromParams := none
  pushKeyFromParams := none
  provisioningProfileFromParams := none
  useDistCertFromParams := fun p s => ({ s with distCert := some p }, none)
  setupIosDist := fun _ s => ({ s with distCert := some 1 }, none)
  usePushKeyFromParams := fun p s => ({ s with pushKey := some p }, none)
  setupIosPush := fun _ s => ({ s with pushKey := some 2 }, none)
  useProvisioningProfileFromParams := fun p _ s =>
    ({ s with provisioningProfile := some p }, none)
  setupIosProvisioningProfile := fun _ _ s =>
    ({ s with provisioningProfile := some 4 }, none)
  ensureAppExistsErr := none
  ensureAppleCtxErr := none
  promptConfirm := true

/-- A collaborator environment whose distribution-certificate resolver needs
operator input and therefore raises `NON_INTERACTIVE`. -/
def envDistNonInteractive : ResolverEnv :=
  { envOk with setupIosDist := fun _ s => (s, some ErrorCode.NON_INTERACTIVE) }

/-- A collaborator environment whose distribution-certificate resolver returns
without error but without storing a certificate. -/
def envDistNoop : ResolverEnv :=
  { envOk with setupIosDist := fun _ s => (s, none) }

/-- A collaborator environment whose push-key resolver fails with a remote
authority error. -/
def envPushRemoteFail : ResolverEnv :=
  { envOk with setupIosPush := fun _ s => (s, some ErrorCode.REMOTE_AUTHORITY) }

/-- A collaborator environment where the operator declines the Apple-account
prompt. -/
def envNoConfirm : ResolverEnv :=
  { envOk with promptConfirm := false }

/-- A concrete Podfile environment with empty template and helper outputs. -/
def podfileEnv0 : PodfileEnv :=
  ⟨"", "", "", "", "", "", "", "", "", "", false, ""⟩

/-- The flag set of the compacted-clear-set scenario: `clearDistCert` is true
and every other clear flag is false, other options unchanged. -/
def onlyClearDistCert (opts : Options) : Options :=
  { opts with
      clearCredentials := false
      clearDistCert := true
      clearPushKey := false
      clearPushCert := false
      clearProvisioningProfile := false }

/-! ### Helper lemmas -/

lemma setupDistCertStep_trace (env : ResolverEnv) (opts : Options)
    (store : IosCredStore) :
    (setupDistCertStep env opts store).trace = [Event.setupDistCert] := by
  cases h : env.distCertFromParams <;> simp [setupDistCertStep, h]

lemma setupPushCertStep_trace (env : ResolverEnv) (opts : Options)
    (store : IosCredStore) :
    (setupPushCertStep env opts store).trace = [Event.setupPushKey] := by
  cases h : env.pushKeyFromParams <;> simp [setupPushCertStep, h]

lemma setupProvisioningProfileStep_trace (env : ResolverEnv) (opts : Options)
    (distCert : Nat) (store : IosCredStore) :
    (setupProvisioningProfileStep env opts distCert store).trace =
      [Event.setupProvisioningProfile distCert] := by
  cases h : env.provisioningProfileFromParams <;>
    simp [setupProvisioningProfileStep, h]

lemma clearDistStep_snd (opts : Options) (c : CredsToClear) (s : IosCredStore) :
    (clearDistStep opts c s).2 =
      { s with distCert :=
          if c.distributionCert.getD false && s.distCert.isSome then none
          else s.distCert } := by
  unfold clearDistStep removeIosDist
  split <;> simp_all

lemma clearPushKeyStep_snd (opts : Options) (c : CredsToClear) (s : IosCredStore) :
    (clearPushKeyStep opts c s).2 =
      { s with pushKey :=
          if c.pushKey.getD false && s.pushKey.isSome then none
          else s.pushKey } := by
  unfold clearPushKeyStep removeIosPush
  split <;> simp_all

lemma clearProfileStep_snd (opts : Options) (c : CredsToClear) (s : IosCredStore) :
    (clearProfileStep opts c s).2 =
      { s with provisioningProfile :=
          if c.provisioningProfile.getD false && s.provisioningProfile.isSome then
            none
          else s.provisioningProfile } := by
  unfold clearProfileStep removeProvisioningProfile
  split <;> simp_all

lemma clearPushCertStep_snd (c : CredsToClear) (s : IosCredStore) :
    (clearPushCertStep c s).2 =
      { s with pushCert :=
          if c.pushCert.getD false && s.pushCert.isSome then none
          else s.pushCert } := by
  unfold clearPushCertStep
  split <;> simp_all

lemma clearDistStep_fst (opts : Options) (c : CredsToClear) (s : IosCredStore) :
    (clearDistStep opts c s).1 =
      if c.distributionCert.getD false && s.distCert.isSome then
        Event.removeDistCertLocal ::
          (if opts.revokeCredentials then [Event.revokeDistCertRemote] else [])
      else [] := by
  unfold clearDistStep removeIosDist
  split <;> simp_all

lemma clearPushKeyStep_fst (opts : Options) (c : CredsToClear) (s : IosCredStore) :
    (clearPushKeyStep opts c s).1 =
      if c.pushKey.getD false && s.pushKey.isSome then
        Event.removePushKeyLocal ::
          (if opts.revokeCredentials then [Event.revokePushKeyRemote] else [])
      else [] := by
  unfold clearPushKeyStep removeIosPush
  split <;> simp_all

lemma clearProfileStep_fst (opts : Options) (c : CredsToClear) (s : IosCredStore) :
    (clearProfileStep opts c s).1 =
      if c.provisioningProfile.getD false && s.provisioningProfile.isSome then
        Event.removeProfileLocal ::
          (if opts.revokeCredentials then [Event.revokeProfileRemote] else [])
      else [] := by
  unfold clearProfileStep removeProvisioningProfile
  split <;> simp_all

lemma clearPushCertStep_fst (c : CredsToClear) (s : IosCredStore) :
    (clearPushCertStep c s).1 =
      if c.pushCert.getD false && s.pushCert.isSome then [Event.deletePushCert]
      else [] := by
  unfold clearPushCertStep
  split <;> simp_all

lemma clearCredentials_store (opts : Options) (store : IosCredStore)
    (c : CredsToClear) :
    (clearCredentials opts store c).2 =
      ⟨if c.distributionCert.getD false && store.distCert.isSome then none
        else store.distCert,
       if c.pushKey.getD false && store.pushKey.isSome then none else store.pushKey,
       if c.pushCert.getD false && store.pushCert.isSome then none else store.pushCert,
       if c.provisioningProfile.getD false && store.provisioningProfile.isSome then
        none else store.provisioningProfile⟩ := by
  show (clearPushCertStep c (clearProfileStep opts c (clearPushKeyStep opts c
      (clearDistStep opts c store).2).2).2).2 = _
  rw [clearDistStep_snd, clearPushKeyStep_snd, clearProfileStep_snd,
    clearPushCertStep_snd]

lemma clearCredentials_trace (opts : Options) (store : IosCredStore)
    (c : CredsToClear) :
    (clearCredentials opts store c).1 =
      (if c.distributionCert.getD false && store.distCert.isSome then
        Event.removeDistCertLocal ::
          (if opts.revokeCredentials then [Event.revokeDistCertRemote] else [])
       else []) ++
      (if c.pushKey.getD false && store.pushKey.isSome then
        Event.removePushKeyLocal ::
          (if opts.revokeCredentials then [Event.revokePushKeyRemote] else [])
       else []) ++
      (if c.provisioningProfile.getD false && store.provisioningProfile.isSome then
        Event.removeProfileLocal ::
          (if opts.revokeCredentials then [Event.revokeProfileRemote] else [])
       else []) ++
      (if c.pushCert.getD false && store.pushCert.isSome then
        [Event.deletePushCert]
       else []) := by
  show (clearDistStep opts c store).1 ++
      (clearPushKeyStep opts c (clearDistStep opts c store).2).1 ++
      (clearProfileStep opts c (clearPushKeyStep opts c
        (clearDistStep opts c store).2).2).1 ++
      (clearPushCertStep c (clearProfileStep opts c (clearPushKeyStep opts c
        (clearDistStep opts c store).2).2).2).1 = _
  rw [clearDistStep_snd, clearPushKeyStep_snd, clearProfileStep_snd,
    clearDistStep_fst, clearPushKeyStep_fst, clearProfileStep_fst,
    clearPushCertStep_fst]

lemma mem_removePair {e a b : Event} {rev : Bool}
    (h : e ∈ a :: (if rev then [b] else [])) : e = a ∨ e = b := by
  rcases List.mem_cons.mp h with h | h
  · exact Or.inl h
  · split at h <;> simp_all

lemma clearCredentials_events (opts : Options) (store : IosCredStore)
    (c : CredsToClear) :
    ∀ e ∈ (clearCredentials opts store c).1, isClearEvent e = true := by
  intro e he
  rw [clearCredentials_trace] at he
  simp only [List.mem_append] at he
  rcases he with ((h | h) | h) | h
  · split at h
    · rcases mem_removePair h with rfl | rfl <;> rfl
    · simp at h
  · split at h
    · rcases mem_removePair h with rfl | rfl <;> rfl
    · simp at h
  · split at h
    · rcases mem_removePair h with rfl | rfl <;> rfl
    · simp at h
  · split at h
    · simp only [List.mem_singleton] at h
      subst h; rfl
    · simp at h

lemma clearAndRevoke_events (opts : Options) (store : IosCredStore) :
    ∀ e ∈ (clearAndRevokeCredentialsIfRequested opts store).1,
      isClearEvent e = true := by
  intro e he
  simp only [clearAndRevokeCredentialsIfRequested] at he
  split at he
  · exact clearCredentials_events _ _ _ e he
  · simp at he

lemma bestEffortAppleCtx_events (env : ResolverEnv) (opts : Options)
    (hasAppleCtx : Bool) :
    ∀ e ∈ (bestEffortAppleCtx env opts hasAppleCtx).1, isAuthEvent e = true := by
  intro e he
  simp only [bestEffortAppleCtx] at he
  split at he
  · simp at he
  · split at he
    · split at he <;>
        · simp only [List.mem_singleton] at he
          subst he; rfl
    · split at he
      · simp at he
      · split at he
        · split at he <;>
            · simp only [List.mem_cons, List.not_mem_nil, or_false] at he
              rcases he with rfl | rfl <;> rfl
        · simp only [List.mem_singleton] at he
          subst he; rfl

lemma produceRest_events (env : ResolverEnv) (opts : Options)
    (store : IosCredStore) :
    ∀ e ∈ (produceRest env opts store).trace, isSetupEvent e = true := by
  intro e he
  simp only [produceRest] at he
  split at he
  · rw [setupDistCertStep_trace] at he
    simp at he
    simp [he, isSetupEvent]
  · split at he
    · rw [setupDistCertStep_trace] at he
      simp at he
      simp [he, isSetupEvent]
    · split at he
      · rw [setupDistCertStep_trace, setupPushCertStep_trace] at he
        simp at he
        rcases he with rfl | rfl <;> rfl
      · rw [setupDistCertStep_trace, setupPushCertStep_trace,
          setupProvisioningProfileStep_trace] at he
        simp at he
        rcases he with rfl | rfl | rfl <;> rfl

lemma produceCredentials_events (env : ResolverEnv) (opts : Options)
    (hasAppleCtx : Bool) (store : IosCredStore) :
    ∀ e ∈ (produceCredentials env opts hasAppleCtx store).trace,
      isSetupEvent e = true := by
  intro e he
  simp only [produceCredentials] at he
  split at he
  · split at he
    · simp only [List.mem_singleton] at he
      subst he; rfl
    · simp only [List.mem_cons] at he
      rcases he with rfl | h
      · rfl
      · exact produceRest_events _ _ _ e h
  · exact produceRest_events _ _ _ e he

lemma isClearEvent_only (e : Event) (h : isClearEvent e = true) :
    isDisplayEvent e = false ∧ isAuthEvent e = false ∧ isSetupEvent e = false := by
  cases e <;> simp_all [isClearEvent, isDisplayEvent, isAuthEvent, isSetupEvent]

lemma isAuthEvent_only (e : Event) (h : isAuthEvent e = true) :
    isDisplayEvent e = false ∧ isClearEvent e = false ∧ isSetupEvent e = false := by
  cases e <;> simp_all [isClearEvent, isDisplayEvent, isAuthEvent, isSetupEvent]

lemma isSetupEvent_only (e : Event) (h : isSetupEvent e = true) :
    isDisplayEvent e = false ∧ isClearEvent e = false ∧ isAuthEvent e = false := by
  cases e <;> simp_all [isClearEvent, isDisplayEvent, isAuthEvent, isSetupEvent]

lemma filter_display_clearAndRevoke (opts : Options) (store : IosCredStore) :
    (clearAndRevokeCredentialsIfRequested opts store).1.filter isDisplayEvent = [] := by
  rw [List.filter_eq_nil_iff]
  intro e he
  have h := (isClearEvent_only e (clearAndRevoke_events opts store e he)).1
  simp [h]

lemma filter_display_bestEffort (env : ResolverEnv) (opts : Options)
    (hasAppleCtx : Bool) :
    (bestEffortAppleCtx env opts hasAppleCtx).1.filter isDisplayEvent = [] := by
  rw [List.filter_eq_nil_iff]
  intro e he
  have h := (isAuthEvent_only e (bestEffortAppleCtx_events env opts hasAppleCtx e he)).1
  simp [h]

lemma filter_display_produce (env : ResolverEnv) (opts : Options)
    (hasAppleCtx : Bool) (store : IosCredStore) :
    (produceCredentials env opts hasAppleCtx store).trace.filter isDisplayEvent =
      [] := by
  rw [List.filter_eq_nil_iff]
  intro e he
  have h := (isSetupEvent_only e
    (produceCredentials_events env opts hasAppleCtx store e he)).1
  simp [h]

lemma pickBool_ne_false (b : Bool) : pickBool b ≠ some false := by
  unfold pickBool
  split <;> simp

/-! ### Claim theorems -/

/-- C9: when the project manifest has no `ios.bundleIdentifier`,
`prepareCredentials` raises `INVALID_OPTIONS` before any credential operation:
the trace is empty (no clear/revoke call, no authentication prompt, no
production step, no report) and the credential store is unchanged. -/
theorem missing_bundle_identifier_aborts_early (env : ResolverEnv)
    (opts : Options) (hasAppleCtx : Bool) (store : IosCredStore) :
    prepareCredentials env opts none hasAppleCtx store =
      ⟨[], store, some ErrorCode.INVALID_OPTIONS⟩ := rfl

/-- C1 (counter-evidence): with `nonInteractive` set and a distribution
certificate resolver that requires operator input (raising `NON_INTERACTIVE`),
`prepareCredentials` does fail with the `NON_INTERACTIVE` error kind, but the
local report step `displayProjectCredentials` IS still invoked, because it
lives in the `finally` block, which fires even when the `catch` block rethrows
the non-interactive error.  This contradicts the claim (and the source's own
comment at IOSBuilder.ts:172-174). -/
theorem nonInteractive_bailout_still_displays_report :
    (prepareCredentials envDistNonInteractive { nonInteractive := true }
        (some "com.acme.app") false store0).err =
      some ErrorCode.NON_INTERACTIVE ∧
    (prepareCredentials envDistNonInteractive { nonInteractive := true }
        (some "com.acme.app") false store0).trace =
      [Event.setupDistCert, Event.displayProjectCredentials store0] := by
  decide

/-- C2: if the distribution-certificate step completes but the certificate
re-read from the store is still absent, `produceCredentials` fails with
`INSUFFICIENT_CREDENTIALS` and no further step runs: the push-key resolver is
not invoked and the provisioning-profile resolver (the only source of a remote
authority call for the profile) is not invoked. -/
theorem hard_gate_insufficient_credentials (env : ResolverEnv) (opts : Options)
    (hasAppleCtx : Bool) (store : IosCredStore)
    (hreg : hasAppleCtx = true → env.ensureAppExistsErr = none)
    (hok : (setupDistCertStep env opts store).err = none)
    (habsent : (setupDistCertStep env opts store).store.distCert = none) :
    (produceCredentials env opts hasAppleCtx store).err =
      some ErrorCode.INSUFFICIENT_CREDENTIALS ∧
    Event.setupPushKey ∉ (produceCredentials env opts hasAppleCtx store).trace ∧
    ∀ p, Event.setupProvisioningProfile p ∉
      (produceCredentials env opts hasAppleCtx store).trace := by
  have hrest : produceRest env opts store =
      ⟨[Event.setupDistCert], (setupDistCertStep env opts store).store,
       some ErrorCode.INSUFFICIENT_CREDENTIALS⟩ := by
    simp only [produceRest]
    rw [hok, habsent, setupDistCertStep_trace]
  cases hCtx : hasAppleCtx
  · simp [produceCredentials, hrest]
  · simp [produceCredentials, hreg hCtx, hrest]

/-- Concrete instantiation of the hard-gate theorem: a dist-cert resolver that
returns without storing a certificate, on an empty store. -/
theorem hard_gate_insufficient_credentials_witness :
    (produceCredentials envDistNoop { } false store0).err =
      some ErrorCode.INSUFFICIENT_CREDENTIALS ∧
    Event.setupPushKey ∉ (produceCredentials envDistNoop { } false store0).trace ∧
    ∀ p, Event.setupProvisioningProfile p ∉
      (produceCredentials envDistNoop { } false store0).trace :=
  hard_gate_insufficient_credentials envDistNoop { } false store0
    (fun h => by cases h) rfl rfl

/-- C7: on the success path, `produceCredentials` performs its steps in this
fixed order: remote app registration (with push notifications requested) if
and only if an authenticated Apple context exists, then the distribution
certificate step first, then the push key step, then the provisioning profile
step, which receives exactly the distribution certificate just re-read from
the store after the distribution-certificate step. -/
theorem produce_credentials_order (env : ResolverEnv) (opts : Options)
    (hasAppleCtx : Bool) (store : IosCredStore) (cert : Nat)
    (hreg : hasAppleCtx = true → env.ensureAppExistsErr = none)
    (hd : (setupDistCertStep env opts store).err = none)
    (hc : (setupDistCertStep env opts store).store.distCert = some cert)
    (hp : (setupPushCertStep env opts
        (setupDistCertStep env opts store).store).err = none) :
    (produceCredentials env opts hasAppleCtx store).trace =
      (if hasAppleCtx then [Event.ensureAppExists true] else []) ++
        [Event.setupDistCert, Event.setupPushKey,
         Event.setupProvisioningProfile cert] := by
  have hrest : (produceRest env opts store).trace =
      [Event.setupDistCert, Event.setupPushKey,
       Event.setupProvisioningProfile cert] := by
    simp only [produceRest]
    rw [hd, hc, hp]
    simp [setupDistCertStep_trace, setupPushCertStep_trace,
      setupProvisioningProfileStep_trace]
  cases hCtx : hasAppleCtx
  · simp [produceCredentials, hrest]
  · simp [produceCredentials, hreg hCtx, hrest]

/-- Concrete instantiation of the ordering theorem: the well-behaved
environment with an authenticated context, on an empty store. -/
theorem produce_credentials_order_witness :
    (produceCredentials envOk { } true store0).trace =
      (if true then [Event.ensureAppExists true] else []) ++
        [Event.setupDistCert, Event.setupPushKey,
         Event.setupProvisioningProfile 1] :=
  produce_credentials_order envOk { } true store0 1
    (fun _ => rfl) rfl rfl rfl

/-- C3: for any failure of the production phase (in particular a remote
authority error during push-key acquisition after the certificate was
resolved) other than `NON_INTERACTIVE`, `prepareCredentials` propagates exactly
that error to the caller, AND the report step runs exactly once, receiving the
current (partially-populated) store; the failure is never downgraded to
continuing. -/
theorem report_always_on_failure (env : ResolverEnv) (opts : Options)
    (b : String) (hasAppleCtx : Bool) (store : IosCredStore) (e : ErrorCode)
    (hskip : opts.skipCredentialsCheck = false)
    (hauth : (bestEffortAppleCtx env opts hasAppleCtx).2.2 = none)
    (hfail : (produceCredentials env opts
        (bestEffortAppleCtx env opts hasAppleCtx).2.1
        (clearAndRevokeCredentialsIfRequested opts store).2).err = some e)
    (hother : e ≠ ErrorCode.NON_INTERACTIVE) :
    (prepareCredentials env opts (some b) hasAppleCtx store).err = some e ∧
    (prepareCredentials env opts (some b) hasAppleCtx store).trace.filter
        isDisplayEvent =
      [Event.displayProjectCredentials
        (prepareCredentials env opts (some b) hasAppleCtx store).store] := by
  have hprep : prepareCredentials env opts (some b) hasAppleCtx store =
      ⟨(clearAndRevokeCredentialsIfRequested opts store).1 ++
        (bestEffortAppleCtx env opts hasAppleCtx).1 ++
        (produceCredentials env opts
          (bestEffortAppleCtx env opts hasAppleCtx).2.1
          (clearAndRevokeCredentialsIfRequested opts store).2).trace ++
        [Event.displayProjectCredentials
          (produceCredentials env opts
            (bestEffortAppleCtx env opts hasAppleCtx).2.1
            (clearAndRevokeCredentialsIfRequested opts store).2).store],
       (produceCredentials env opts
         (bestEffortAppleCtx env opts hasAppleCtx).2.1
         (clearAndRevokeCredentialsIfRequested opts store).2).store,
       (produceCredentials env opts
         (bestEffortAppleCtx env opts hasAppleCtx).2.1
         (clearAndRevokeCredentialsIfRequested opts store).2).err⟩ := by
    simp only [prepareCredentials, hskip]
    rw [hauth]
    rfl
  rw [hprep]
  refine ⟨hfail, ?_⟩
  simp [List.filter_append, filter_display_clearAndRevoke,
    filter_display_bestEffort, filter_display_produce, isDisplayEvent]

/-- Concrete instantiation of the report-always theorem: nonempty clear flags
absent, push-key resolver failing with a remote authority error after the
certificate step succeeded. -/
theorem report_always_on_failure_witness :
    (prepareCredentials envPushRemoteFail { nonInteractive := true }
        (some "com.acme.app") false store0).err =
      some ErrorCode.REMOTE_AUTHORITY ∧
    (prepareCredentials envPushRemoteFail { nonInteractive := true }
        (some "com.acme.app") false store0).trace.filter isDisplayEvent =
      [Event.displayProjectCredentials
        (prepareCredentials envPushRemoteFail { nonInteractive := true }
          (some "com.acme.app") false store0).store] :=
  report_always_on_failure envPushRemoteFail { nonInteractive := true }
    "com.acme.app" false store0 ErrorCode.REMOTE_AUTHORITY rfl rfl rfl
    (by decide)

/-- C4 (counter-evidence): with `skipCredentialsCheck` set together with a
clear flag, the clear/revoke phase still runs before the skip check: the local
distribution certificate is removed, although the claim says no clear/revoke
action occurs on a skipped invocation. -/
theorem skipCredentialsCheck_clear_still_runs :
    Event.removeDistCertLocal ∈
      (prepareCredentials envOk
        { skipCredentialsCheck := true, clearDistCert := true }
        (some "com.acme.app") false storeFull).trace := by
  decide

/-- C4 (amended): when `skipCredentialsCheck` is set, `prepareCredentials`
first performs the clear/revoke phase (if any clear flag requested it) and
then bypasses the rest of the credential phase: it succeeds with no
authentication event, no production step and no report. -/
theorem skipCredentialsCheck_amended (env : ResolverEnv) (opts : Options)
    (b : String) (hasAppleCtx : Bool) (store : IosCredStore)
    (h : opts.skipCredentialsCheck = true) :
    prepareCredentials env opts (some b) hasAppleCtx store =
      ⟨(clearAndRevokeCredentialsIfRequested opts store).1,
       (clearAndRevokeCredentialsIfRequested opts store).2, none⟩ ∧
    ∀ e ∈ (prepareCredentials env opts (some b) hasAppleCtx store).trace,
      isClearEvent e = true ∧ isAuthEvent e = false ∧ isSetupEvent e = false ∧
        isDisplayEvent e = false := by
  have hp : prepareCredentials env opts (some b) hasAppleCtx store =
      ⟨(clearAndRevokeCredentialsIfRequested opts store).1,
       (clearAndRevokeCredentialsIfRequested opts store).2, none⟩ := by
    simp only [prepareCredentials, h]
    rfl
  refine ⟨hp, ?_⟩
  rw [hp]
  intro e he
  have hc := clearAndRevoke_events opts store e he
  have ho := isClearEvent_only e hc
  exact ⟨hc, ho.2.1, ho.2.2, ho.1⟩

/-- Concrete instantiation of the amended skip-check theorem. -/
theorem skipCredentialsCheck_amended_witness :
    prepareCredentials envOk
        { skipCredentialsCheck := true, clearDistCert := true }
        (some "com.acme.app") false storeFull =
      ⟨(clearAndRevokeCredentialsIfRequested
          { skipCredentialsCheck := true, clearDistCert := true } storeFull).1,
       (clearAndRevokeCredentialsIfRequested
          { skipCredentialsCheck := true, clearDistCert := true } storeFull).2,
       none⟩ :=
  (skipCredentialsCheck_amended envOk
    { skipCredentialsCheck := true, clearDistCert := true }
    "com.acme.app" false storeFull rfl).1

/-- C5: the compacted clear request implies all four entries under the global
flag, never contains an explicit false entry, omits entries for false/absent
flags, and — for the flag set `(clearDistCert: true, clearPushKey: false)` —
clearing acts only on the distribution certificate: the push key, legacy push
certificate and provisioning profile slots are untouched and the only events
are the distribution-certificate removal (and its optional revocation). -/
theorem compacted_clear_set (opts : Options) (store : IosCredStore) :
    (opts.clearCredentials = true →
      determineCredentialsToClear opts =
        ⟨some true, some true, some true, some true⟩) ∧
    ((determineCredentialsToClear opts).distributionCert ≠ some false ∧
     (determineCredentialsToClear opts).pushKey ≠ some false ∧
     (determineCredentialsToClear opts).pushCert ≠ some false ∧
     (determineCredentialsToClear opts).provisioningProfile ≠ some false) ∧
    (opts.clearCredentials = false → opts.clearDistCert = false →
      (determineCredentialsToClear opts).distributionCert = none) ∧
    (opts.clearCredentials = false → opts.clearPushKey = false →
      (determineCredentialsToClear opts).pushKey = none) ∧
    (opts.clearCredentials = false → opts.clearPushCert = false →
      (determineCredentialsToClear opts).pushCert = none) ∧
    (opts.clearCredentials = false → opts.clearProvisioningProfile = false →
      (determineCredentialsToClear opts).provisioningProfile = none) ∧
    ((clearCredentials (onlyClearDistCert opts) store
        (determineCredentialsToClear (onlyClearDistCert opts))).2.pushKey =
      store.pushKey) ∧
    ((clearCredentials (onlyClearDistCert opts) store
        (determineCredentialsToClear (onlyClearDistCert opts))).2.pushCert =
      store.pushCert) ∧
    ((clearCredentials (onlyClearDistCert opts) store
        (determineCredentialsToClear (onlyClearDistCert opts))).2.provisioningProfile =
      store.provisioningProfile) ∧
    ((clearCredentials (onlyClearDistCert opts) store
        (determineCredentialsToClear (onlyClearDistCert opts))).2.distCert =
      none) ∧
    (∀ e ∈ (clearCredentials (onlyClearDistCert opts) store
        (determineCredentialsToClear (onlyClearDistCert opts))).1,
      e = Event.removeDistCertLocal ∨ e = Event.revokeDistCertRemote) := by
  refine ⟨?_,
    ⟨pickBool_ne_false _, pickBool_ne_false _, pickBool_ne_false _,
     pickBool_ne_false _⟩, ?_, ?_, ?_, ?_, ?_, ?_, ?_, ?_, ?_⟩
  · intro h
    simp [determineCredentialsToClear, pickBool, h]
  · intro h1 h2
    simp [determineCredentialsToClear, pickBool, h1, h2]
  · intro h1 h2
    simp [determineCredentialsToClear, pickBool, h1, h2]
  · intro h1 h2
    simp [determineCredentialsToClear, pickBool, h1, h2]
  · intro h1 h2
    simp [determineCredentialsToClear, pickBool, h1, h2]
  · simp [clearCredentials_store, onlyClearDistCert, determineCredentialsToClear,
      pickBool]
  · simp [clearCredentials_store, onlyClearDistCert, determineCredentialsToClear,
      pickBool]
  · simp [clearCredentials_store, onlyClearDistCert, determineCredentialsToClear,
      pickBool]
  · simp only [clearCredentials_store]
    cases h : store.distCert <;>
      simp [onlyClearDistCert, determineCredentialsToClear, pickBool, h]
  · intro e he
    rw [clearCredentials_trace] at he
    simp only [onlyClearDistCert, determineCredentialsToClear, pickBool] at he
    simp at he
    rcases he.2 with h | h
    · exact Or.inl h
    · exact Or.inr h.2

/-- Concrete instantiation of the compacted-clear-set theorem at the global
clear flag. -/
theorem compacted_clear_set_witness :
    determineCredentialsToClear { clearCredentials := true } =
      ⟨some true, some true, some true, some true⟩ :=
  (compacted_clear_set { clearCredentials := true } storeFull).1 rfl

/-- C6: each of the four clear-phase removals acts exactly when it was
requested and the artifact is locally present (read-then-conditionally-act; an
absent artifact is a no-op, never an error), and the removals are independent:
each slot of the resulting store depends only on its own request flag and its
own prior presence, so clearing a provisioning profile never removes the
certificate and clearing a certificate never removes the profile record. -/
theorem clear_read_then_act_and_independence (opts : Options)
    (store : IosCredStore) (c : CredsToClear) :
    ((clearCredentials opts store c).2.distCert =
      if c.distributionCert.getD false && store.distCert.isSome then none
      else store.distCert) ∧
    ((clearCredentials opts store c).2.pushKey =
      if c.pushKey.getD false && store.pushKey.isSome then none
      else store.pushKey) ∧
    ((clearCredentials opts store c).2.provisioningProfile =
      if c.provisioningProfile.getD false && store.provisioningProfile.isSome then
        none
      else store.provisioningProfile) ∧
    ((clearCredentials opts store c).2.pushCert =
      if c.pushCert.getD false && store.pushCert.isSome then none
      else store.pushCert) ∧
    (Event.removeDistCertLocal ∈ (clearCredentials opts store c).1 ↔
      (c.distributionCert.getD false && store.distCert.isSome) = true) ∧
    (Event.removePushKeyLocal ∈ (clearCredentials opts store c).1 ↔
      (c.pushKey.getD false && store.pushKey.isSome) = true) ∧
    (Event.removeProfileLocal ∈ (clearCredentials opts store c).1 ↔
      (c.provisioningProfile.getD false && store.provisioningProfile.isSome) =
        true) ∧
    (Event.deletePushCert ∈ (clearCredentials opts store c).1 ↔
      (c.pushCert.getD false && store.pushCert.isSome) = true) := by
  refine ⟨by simp [clearCredentials_store], by simp [clearCredentials_store],
    by simp [clearCredentials_store], by simp [clearCredentials_store],
    ?_, ?_, ?_, ?_⟩ <;>
  · rw [clearCredentials_trace]
    cases h1 : c.distributionCert.getD false && store.distCert.isSome <;>
    cases h2 : c.pushKey.getD false && store.pushKey.isSome <;>
    cases h3 : c.provisioningProfile.getD false &&
      store.provisioningProfile.isSome <;>
    cases h4 : c.pushCert.getD false && store.pushCert.isSome <;>
    cases h5 : opts.revokeCredentials <;> simp

/-- C8: the best-effort authentication gate returns immediately with no prompt
when an authenticated context exists; authenticates immediately without
prompting when `appleId` was supplied; in non-interactive mode returns without
prompting and without authenticating; otherwise prompts the operator,
authenticating on a positive answer, while a negative answer skips
authentication entirely and the gate still returns successfully. -/
theorem bestEffort_gate_cases (env : ResolverEnv) (opts : Options) :
    bestEffortAppleCtx env opts true = ([], true, none) ∧
    (opts.appleId.isSome = true →
      (bestEffortAppleCtx env opts false).1 = [Event.ensureAppleCtx]) ∧
    (opts.appleId = none → opts.nonInteractive = true →
      bestEffortAppleCtx env opts false = ([], false, none)) ∧
    (opts.appleId = none → opts.nonInteractive = false →
      env.promptConfirm = true →
      (bestEffortAppleCtx env opts false).1 =
        [Event.promptAppleAccount, Event.ensureAppleCtx]) ∧
    (opts.appleId = none → opts.nonInteractive = false →
      env.promptConfirm = false →
      bestEffortAppleCtx env opts false =
        ([Event.promptAppleAccount], false, none)) := by
  refine ⟨rfl, ?_, ?_, ?_, ?_⟩
  · intro h
    cases he : env.ensureAppleCtxErr <;> simp [bestEffortAppleCtx, h, he]
  · intro h1 h2
    simp [bestEffortAppleCtx, h1, h2]
  · intro h1 h2 h3
    cases he : env.ensureAppleCtxErr <;>
      simp [bestEffortAppleCtx, h1, h2, h3, he]
  · intro h1 h2 h3
    simp [bestEffortAppleCtx, h1, h2, h3]

/-- Concrete instantiations of the authentication-gate theorem, one per
branch. -/
theorem bestEffort_gate_cases_witness :
    bestEffortAppleCtx envOk { } true = ([], true, none) ∧
    (bestEffortAppleCtx envOk { appleId := some "user" } false).1 =
      [Event.ensureAppleCtx] ∧
    bestEffortAppleCtx envOk { nonInteractive := true } false =
      ([], false, none) ∧
    (bestEffortAppleCtx envOk { } false).1 =
      [Event.promptAppleAccount, Event.ensureAppleCtx] ∧
    bestEffortAppleCtx envNoConfirm { } false =
      ([Event.promptAppleAccount], false, none) :=
  ⟨(bestEffort_gate_cases envOk { }).1,
   (bestEffort_gate_cases envOk { appleId := some "user" }).2.1 rfl,
   (bestEffort_gate_cases envOk { nonInteractive := true }).2.2.1 rfl rfl,
   (bestEffort_gate_cases envOk { }).2.2.2.1 rfl rfl rfl,
   (bestEffort_gate_cases envNoConfirm { }).2.2.2.2 rfl rfl rfl⟩

/-- C10: whenever the substitutions object (the defaults spread with the
caller-supplied entries) contains a key outside the fixed list of recognized
Podfile template keys, `renderPodfileAsync` fails with an error naming an
unrecognized key, before any replacement is applied and before any output is
produced (the result is an error, not a rendered Podfile). -/
theorem renderPodfile_rejects_unknown_key (env : PodfileEnv)
    (more : List (String × String))
    (h : ∃ kv ∈ objSpread (defaultSubstitutions env) more,
        validKeys.contains kv.1 = false) :
    ∃ k, validKeys.contains k = false ∧
      renderPodfileAsync env more =
        Except.error ("Unrecognized Podfile template key: " ++ k) := by
  obtain ⟨kv, hmem, hk⟩ := h
  have hsome : ((objSpread (defaultSubstitutions env) more).find?
      (fun kv => !(validKeys.contains kv.1))).isSome := by
    rw [List.find?_isSome]
    exact ⟨kv, hmem, by simpa using hk⟩
  obtain ⟨kv0, hfind⟩ := Option.isSome_iff_exists.mp hsome
  have hk0 : validKeys.contains kv0.1 = false := by
    have hp := List.find?_some hfind
    simpa using hp
  refine ⟨kv0.1, hk0, ?_⟩
  simp only [renderPodfileAsync, validatePodfileSubstitutions, hfind]

/-- Concrete instantiation of the unknown-key rejection theorem. -/
theorem renderPodfile_rejects_unknown_key_witness :
    ∃ k, validKeys.contains k = false ∧
      renderPodfileAsync podfileEnv0 [("SOME_UNKNOWN_KEY", "x")] =
        Except.error ("Unrecognized Podfile template key: " ++ k) :=
  renderPodfile_rejects_unknown_key podfileEnv0 [("SOME_UNKNOWN_KEY", "x")]
    ⟨("SOME_UNKNOWN_KEY", "x"), by decide, by decide⟩

end ExpoCli
